import Mathlib

/-!
Shallow embedding of `crates/kornia-models/src/smolvlm/benchmark.rs`
(kornia SmolVLM benchmarking harness) and proofs about its claims.

Modelling conventions:
* `std::time::Duration` is modelled as a `Nat` of nanoseconds; the wall-clock
  time elapsed during each external phase call is returned by the environment
  together with the phase's value (the `Instant::now()/elapsed()` pair in the
  source measures exactly that external duration).
* Fallible Rust functions returning `Result<T, SmolVLMError>` are modelled as
  `Except SmolVLMError T`.
* The external collaborators that are not part of the repository sources
  (`load_backend`, `SmolVLMBackend::process_image`, `SmolVLMBackend::generate`,
  and the `nvidia-smi` host query inside `gpu_available`) are injectable
  fields of an `Env` record.  The host query may answer differently on each
  invocation, so it is indexed by the number of probe calls made so far; the
  driver threads that counter, which makes the number of probe invocations an
  observable of the embedding.
-/

/-- Modelled from the spec: `SmolVLMError` (defined in `smolvlm/common.rs`,
not present under the given sources) is an opaque error value with a `Display`
rendering; it is modelled as its rendered message. -/
abbrev SmolVLMError := String

/-- Modelled from the spec: the backend identifier enum (the examples construct
`Candle` and `Onnx` backends); the benchmark driver treats it as opaque except
for `Debug` labels. -/
inductive SmolVLMModel where
  | Candle : SmolVLMModel
  | Onnx : SmolVLMModel
deriving DecidableEq

/-- Modelled from the spec: the model variant enum; `compare_backends` in the
source enumerates exactly `Tiny`, `Small`, `Medium`. -/
inductive SmolVLMVariant where
  | Tiny : SmolVLMVariant
  | Small : SmolVLMVariant
  | Medium : SmolVLMVariant
deriving DecidableEq

/-- Rust `Debug` label of a backend identifier. -/
def SmolVLMModel.debug : SmolVLMModel → String
  | .Candle => "Candle"
  | .Onnx => "Onnx"

/-- Rust `Debug` label of a model variant. -/
def SmolVLMVariant.debug : SmolVLMVariant → String
  | .Tiny => "Tiny"
  | .Small => "Small"
  | .Medium => "Medium"

/-- `BenchmarkResult` of `benchmark.rs`: backend, variant, device flag, the
three phase durations (nanoseconds) and the generated text.  Note the struct
stores the three phase durations and no separate total field. -/
structure BenchmarkResult where
  backend : SmolVLMModel
  variant : SmolVLMVariant
  use_cpu : Bool
  load_time : Nat
  process_time : Nat
  generate_time : Nat
  output : String
deriving DecidableEq

/-- Result of running the `nvidia-smi` process: only its exit status matters
to `gpu_available` (`output.status.success()`). -/
structure CommandOutput where
  status_success : Bool
deriving DecidableEq

/-- The injectable external collaborators of the benchmark driver.  `M` is the
type of a loaded backend handle, `I` the type of a preprocessed image tensor.
Each phase returns its value together with the wall-clock nanoseconds it took.
`nvidia_smi` is indexed by how many times `gpu_available` has been invoked so
far, so a changing host can be expressed. -/
structure Env (M I : Type) where
  load_backend : SmolVLMModel → SmolVLMVariant → Bool → String → Except SmolVLMError (M × Nat)
  process_image : M → String → Except SmolVLMError (I × Nat)
  generate : M → I → String → Except SmolVLMError (String × Nat)
  is_macos_aarch64 : Bool
  nvidia_smi : Nat → Except SmolVLMError CommandOutput

/-- `gpu_available` of `benchmark.rs` at its `k`-th invocation: on macOS
aarch64 it is compiled to `false`; otherwise it runs `nvidia-smi`, maps the
output to `status.success()` and turns any error of the probe itself into
`false` (`unwrap_or(false)`). -/
def gpu_available {M I : Type} (env : Env M I) (k : Nat) : Bool :=
  if env.is_macos_aarch64 then
    false
  else
    match env.nvidia_smi k with
    | .ok output => output.status_success
    | .error _ => false

/-- `benchmark_model` of `benchmark.rs`: run the three phases in sequence,
propagating the first error (the `?` operator), and assemble a
`BenchmarkResult` from the measured durations on success. -/
def benchmark_model {M I : Type} (env : Env M I) (backend : SmolVLMModel)
    (variant : SmolVLMVariant) (use_cpu : Bool)
    (model_path image_path prompt : String) :
    Except SmolVLMError BenchmarkResult :=
  match env.load_backend backend variant use_cpu model_path with
  | .error e => .error e
  | .ok (model, load_time) =>
    match env.process_image model image_path with
    | .error e => .error e
    | .ok (image_tensor, process_time) =>
      match env.generate model image_tensor prompt with
      | .error e => .error e
      | .ok (output, generate_time) =>
        .ok { backend := backend, variant := variant, use_cpu := use_cpu,
              load_time := load_time, process_time := process_time,
              generate_time := generate_time, output := output }

/-- State threaded through the `run_benchmarks` loops: the accumulated results
vector, plus the number of `gpu_available` invocations made so far (an
observable instrumentation of the probe effect). -/
structure RunState where
  probeCalls : Nat
  results : List (Except SmolVLMError BenchmarkResult)

/-- Body of the innermost `for use_cpu in devices` iteration of
`run_benchmarks`: `if !use_cpu && !gpu_available() { continue; }` — by
short-circuiting, `gpu_available` is invoked exactly when `use_cpu` is false —
then the configuration is benchmarked and its outcome pushed. -/
def runInner {M I : Type} (env : Env M I) (model_path image_path prompt : String)
    (backend : SmolVLMModel) (variant : SmolVLMVariant)
    (st : RunState) (use_cpu : Bool) : RunState :=
  if use_cpu then
    { st with results :=
        st.results ++ [benchmark_model env backend variant use_cpu model_path image_path prompt] }
  else
    let avail := gpu_available env st.probeCalls
    let st1 : RunState := { st with probeCalls := st.probeCalls + 1 }
    if avail then
      { st1 with results :=
          st1.results ++ [benchmark_model env backend variant use_cpu model_path image_path prompt] }
    else
      st1

/-- `run_benchmarks` of `benchmark.rs`: the triple nested loop, backend outer,
variant middle, device innermost, starting from an empty results vector. -/
def run_benchmarks {M I : Type} (env : Env M I) (backends : List SmolVLMModel)
    (variants : List SmolVLMVariant) (devices : List Bool)
    (model_path image_path prompt : String) : RunState :=
  backends.foldl (fun st backend =>
    variants.foldl (fun st variant =>
      devices.foldl (fun st use_cpu =>
        runInner env model_path image_path prompt backend variant st use_cpu) st) st)
    { probeCalls := 0, results := [] }

/-- The ordered configuration cross-product: backend outer, variant middle,
device innermost. -/
def matrix_configs (backends : List SmolVLMModel) (variants : List SmolVLMVariant)
    (devices : List Bool) : List (SmolVLMModel × SmolVLMVariant × Bool) :=
  backends.flatMap fun b => variants.flatMap fun v => devices.map fun d => (b, v, d)

/-- The device list after the accelerator filter: a CPU entry is always kept,
a GPU entry is kept exactly when the probe (at a stable host) reports
available. -/
def keptDevices {M I : Type} (env : Env M I) (devices : List Bool) : List Bool :=
  devices.filter fun d => d || gpu_available env 0

/-- A host whose accelerator availability does not change during the run:
every probe invocation reports the same answer as the first. -/
def StableProbe {M I : Type} (env : Env M I) : Prop :=
  ∀ k, gpu_available env k = gpu_available env 0

section StructuralLemmas

variable {M I : Type}

theorem runInner_probeCalls (env : Env M I) (mp ip pr : String)
    (b : SmolVLMModel) (v : SmolVLMVariant) (st : RunState) (d : Bool) :
    (runInner env mp ip pr b v st d).probeCalls =
      st.probeCalls + (if d then 0 else 1) := by
  cases d
  · simp only [runInner, Bool.false_eq_true, if_false]
    split
    · simp
    · simp
  · simp [runInner]

theorem devices_foldl_probeCalls (env : Env M I) (mp ip pr : String)
    (b : SmolVLMModel) (v : SmolVLMVariant) (devices : List Bool) :
    ∀ st : RunState,
      (devices.foldl (runInner env mp ip pr b v) st).probeCalls =
        st.probeCalls + (devices.filter (fun d => !d)).length := by
  induction devices with
  | nil => intro st; simp
  | cons d rest ih =>
    intro st
    rw [List.foldl_cons, ih]
    rw [runInner_probeCalls]
    cases d
    · simp [List.filter_cons]
      omega
    · simp [List.filter_cons]

theorem variants_foldl_probeCalls (env : Env M I) (mp ip pr : String)
    (b : SmolVLMModel) (variants : List SmolVLMVariant) (devices : List Bool) :
    ∀ st : RunState,
      (variants.foldl (fun st v =>
          devices.foldl (runInner env mp ip pr b v) st) st).probeCalls =
        st.probeCalls + variants.length * (devices.filter (fun d => !d)).length := by
  induction variants with
  | nil => intro st; simp
  | cons v rest ih =>
    intro st
    rw [List.foldl_cons, ih, devices_foldl_probeCalls]
    simp [Nat.succ_mul]
    omega

theorem run_benchmarks_probeCalls (env : Env M I) (backends : List SmolVLMModel)
    (variants : List SmolVLMVariant) (devices : List Bool)
    (mp ip pr : String) :
    (run_benchmarks env backends variants devices mp ip pr).probeCalls =
      backends.length * variants.length * (devices.filter (fun d => !d)).length := by
  rw [run_benchmarks]
  suffices h : ∀ st : RunState,
      (backends.foldl (fun st backend =>
        variants.foldl (fun st variant =>
          devices.foldl (runInner env mp ip pr backend variant) st) st) st).probeCalls =
      st.probeCalls + backends.length * (variants.length * (devices.filter (fun d => !d)).length) by
    rw [h]
    simp [Nat.mul_assoc]
  induction backends with
  | nil => intro st; simp
  | cons b rest ih =>
    intro st
    rw [List.foldl_cons, ih, variants_foldl_probeCalls]
    simp [Nat.succ_mul]
    omega

theorem devices_foldl_results (env : Env M I) (mp ip pr : String)
    (b : SmolVLMModel) (v : SmolVLMVariant) (hstable : StableProbe env)
    (devices : List Bool) :
    ∀ st : RunState,
      (devices.foldl (runInner env mp ip pr b v) st).results =
        st.results ++ (keptDevices env devices).map
          (fun d => benchmark_model env b v d mp ip pr) := by
  induction devices with
  | nil => intro st; simp [keptDevices]
  | cons d rest ih =>
    intro st
    rw [List.foldl_cons, ih]
    cases d with
    | true =>
      simp [runInner, keptDevices, List.filter_cons]
    | false =>
      have hav : gpu_available env st.probeCalls = gpu_available env 0 := hstable _
      by_cases h0 : gpu_available env 0 = true
      · simp [runInner, hav, h0, keptDevices, List.filter_cons]
      · simp only [Bool.not_eq_true] at h0
        simp [runInner, hav, h0, keptDevices, List.filter_cons]

theorem variants_foldl_results (env : Env M I) (mp ip pr : String)
    (b : SmolVLMModel) (hstable : StableProbe env)
    (variants : List SmolVLMVariant) (devices : List Bool) :
    ∀ st : RunState,
      (variants.foldl (fun st v =>
          devices.foldl (runInner env mp ip pr b v) st) st).results =
        st.results ++ (variants.flatMap fun v => (keptDevices env devices).map
          (fun d => benchmark_model env b v d mp ip pr)) := by
  induction variants with
  | nil => intro st; simp
  | cons v rest ih =>
    intro st
    rw [List.foldl_cons, ih, devices_foldl_results env mp ip pr b v hstable]
    simp

/-- The driver, on a stable host, produces exactly the map of
`benchmark_model` over the filtered configuration cross-product, in matrix
order. -/
theorem run_benchmarks_results_eq (env : Env M I) (backends : List SmolVLMModel)
    (variants : List SmolVLMVariant) (devices : List Bool)
    (mp ip pr : String) (hstable : StableProbe env) :
    (run_benchmarks env backends variants devices mp ip pr).results =
      (matrix_configs backends variants (keptDevices env devices)).map
        (fun c => benchmark_model env c.1 c.2.1 c.2.2 mp ip pr) := by
  rw [run_benchmarks]
  suffices h : ∀ st : RunState,
      (backends.foldl (fun st backend =>
        variants.foldl (fun st variant =>
          devices.foldl (runInner env mp ip pr backend variant) st) st) st).results =
      st.results ++ (backends.flatMap fun b => variants.flatMap fun v =>
        (keptDevices env devices).map (fun d => benchmark_model env b v d mp ip pr)) by
    rw [h]
    simp [matrix_configs, List.map_flatMap, Function.comp_def]
  induction backends with
  | nil => intro st; simp
  | cons b rest ih =>
    intro st
    rw [List.foldl_cons, ih, variants_foldl_results env mp ip pr b hstable]
    simp

theorem benchmark_model_labels (env : Env M I) (b : SmolVLMModel)
    (v : SmolVLMVariant) (d : Bool) (mp ip pr : String) (r : BenchmarkResult)
    (h : benchmark_model env b v d mp ip pr = .ok r) :
    r.backend = b ∧ r.variant = v ∧ r.use_cpu = d := by
  rw [benchmark_model] at h
  split at h
  · exact absurd h (by simp)
  · split at h
    · exact absurd h (by simp)
    · split at h
      · exact absurd h (by simp)
      · rw [Except.ok.injEq] at h
        rw [← h]
        exact ⟨rfl, rfl, rfl⟩

theorem matrix_inner_length (b : SmolVLMModel) (variants : List SmolVLMVariant)
    (devices : List Bool) :
    (variants.flatMap fun v => devices.map fun d => (b, v, d)).length =
      variants.length * devices.length := by
  induction variants with
  | nil => simp
  | cons v rest ih =>
    simp only [List.flatMap_cons, List.length_append, ih, List.length_map,
      List.length_cons]
    ring

theorem matrix_configs_length (backends : List SmolVLMModel)
    (variants : List SmolVLMVariant) (devices : List Bool) :
    (matrix_configs backends variants devices).length =
      backends.length * variants.length * devices.length := by
  induction backends with
  | nil => simp [matrix_configs]
  | cons b rest ih =>
    simp only [matrix_configs, List.flatMap_cons, List.length_append,
      List.length_cons] at ih ⊢
    rw [ih, matrix_inner_length]
    ring

end StructuralLemmas

/-- Rendering of a `Duration` value.  Rust renders `Duration` with `Debug`
(unit-scaled); the unit scaling is a std concern external to the repository,
so a duration is rendered here as its exact nanosecond count — an injective
rendering of the same value the source passes to the formatter. -/
def formatDuration (n : Nat) : String := toString n ++ "ns"

/-- Left-aligned padding to a minimum width, Rust's `{:<N}` format directive. -/
def padRight (s : String) (n : Nat) : String :=
  s ++ String.mk (List.replicate (n - s.length) ' ')

/-- Device label used throughout the source: `"CPU"` when `use_cpu`, else
`"GPU"`. -/
def deviceLabel (use_cpu : Bool) : String := if use_cpu then "CPU" else "GPU"

/-- `BenchmarkResult::to_string`: the multi-line rendering; the total-time
line renders `load_time + process_time + generate_time`, recomputed from the
three stored phase fields (the struct has no stored total). -/
def BenchmarkResult.to_string (r : BenchmarkResult) : String :=
  "Backend: " ++ r.backend.debug ++ ", Variant: " ++ r.variant.debug ++
    ", Device: " ++ deviceLabel r.use_cpu ++ "\n" ++
  "Load time: " ++ formatDuration r.load_time ++ "\n" ++
  "Process time: " ++ formatDuration r.process_time ++ "\n" ++
  "Generate time: " ++ formatDuration r.generate_time ++ "\n" ++
  "Total time: " ++
    formatDuration (r.load_time + r.process_time + r.generate_time) ++ "\n" ++
  "Output: " ++ r.output

/-- The header line of `print_benchmark_table`. -/
def table_header : String :=
  padRight "Backend" 10 ++ " " ++ padRight "Variant" 8 ++ " " ++
  padRight "Device" 5 ++ " " ++ padRight "Load Time" 15 ++ " " ++
  padRight "Process Time" 15 ++ " " ++ padRight "Generate Time" 15 ++ " " ++
  padRight "Total Time" 15

/-- The separator line of `print_benchmark_table`: `""` padded with `-` to
width 90. -/
def table_separator : String := String.mk (List.replicate 90 '-')

/-- The timing row `print_benchmark_table` prints for one successful result:
seven left-aligned columns, the last one the recomputed total
`load_time + process_time + generate_time`. -/
def success_row (r : BenchmarkResult) : String :=
  padRight r.backend.debug 10 ++ " " ++ padRight r.variant.debug 8 ++ " " ++
  padRight (deviceLabel r.use_cpu) 5 ++ " " ++
  padRight (formatDuration r.load_time) 15 ++ " " ++
  padRight (formatDuration r.process_time) 15 ++ " " ++
  padRight (formatDuration r.generate_time) 15 ++ " " ++
  padRight (formatDuration (r.load_time + r.process_time + r.generate_time)) 15

/-- The single line `print_benchmark_table` prints for one outcome: the
timing row for a success, the dedicated `Error: …` line for a failure. -/
def benchmark_table_line : Except SmolVLMError BenchmarkResult → String
  | .ok r => success_row r
  | .error e => "Error: " ++ e

/-- `print_benchmark_table` of `benchmark.rs`, modelled as the list of lines
it prints (each `println!` emits exactly one line): the header, the
separator, then one line per outcome in sequence order. -/
def print_benchmark_table (results : List (Except SmolVLMError BenchmarkResult)) :
    List String :=
  table_header :: table_separator :: results.map benchmark_table_line

/-- `get_fps` of `benchmark.rs`.  The source computes on `f64` seconds
(`process_time.as_secs_f64()`); the embedding computes the same quantity
exactly in `ℚ`: `process_time` nanoseconds is `process_time / 10^9` seconds,
and the guard `seconds > 0.0` holds exactly when `process_time > 0`. -/
def get_fps (r : BenchmarkResult) : ℚ :=
  let seconds : ℚ := (r.process_time : ℚ) / 1000000000
  if seconds > 0 then 1 / seconds else 0

/-- Rendering of the FPS number (the source formats with `{:.2}`; the
decimal rounding is a std formatting concern, abstracted as the exact
rational's rendering). -/
def formatFps (q : ℚ) : String := toString q

/-- The successful results of the given outcome sequence whose variant and
device match the given group — the `filtered` vector of `compare_backends`. -/
def group_results (results : List (Except SmolVLMError BenchmarkResult))
    (variant : SmolVLMVariant) (use_cpu : Bool) : List BenchmarkResult :=
  results.filterMap fun r =>
    match r with
    | .ok result =>
      if result.variant = variant ∧ result.use_cpu = use_cpu then some result
      else none
    | .error _ => none

/-- The text `compare_backends` appends for one (variant, device) group:
nothing when the group has at most one successful result, otherwise the
group header, one timing/FPS line per result, and the `Outputs:` block. -/
def compare_group (results : List (Except SmolVLMError BenchmarkResult))
    (variant : SmolVLMVariant) (use_cpu : Bool) : String :=
  let filtered := group_results results variant use_cpu
  if filtered.length > 1 then
    "\n=== " ++ variant.debug ++ " on " ++ deviceLabel use_cpu ++ " ===\n" ++
    String.join (filtered.map fun result =>
      result.backend.debug ++ " - Process: " ++ formatDuration result.process_time ++
      ", Generate: " ++ formatDuration result.generate_time ++
      ", Total: " ++ formatDuration (result.process_time + result.generate_time) ++
      ", FPS: " ++ formatFps (get_fps result) ++ "\n") ++
    (if filtered.length ≥ 2 then
      "\nOutputs:\n" ++
      String.join (filtered.map fun result =>
        result.backend.debug ++ ": " ++ result.output ++ "\n")
    else "")
  else ""

/-- The (variant, device) pairs `compare_backends` iterates, in its iteration
order: the hardcoded variant list `[Tiny, Small, Medium]` outer, the device
list `[true, false]` inner. -/
def variant_device_pairs : List (SmolVLMVariant × Bool) :=
  [SmolVLMVariant.Tiny, SmolVLMVariant.Small, SmolVLMVariant.Medium].flatMap
    fun v => [true, false].map fun c => (v, c)

/-- `compare_backends` of `benchmark.rs`: the accumulated `comparisons`
string is the concatenation of the per-group texts over the hardcoded
variant × device iteration. -/
def compare_backends (results : List (Except SmolVLMError BenchmarkResult)) :
    String :=
  String.join (variant_device_pairs.map fun p => compare_group results p.1 p.2)

/-! Concrete environments used to instantiate the theorems below. -/

/-- An environment where every phase succeeds and the accelerator probe
always answers available. -/
def okEnv : Env Unit Unit where
  load_backend := fun _ _ _ _ => .ok ((), 5)
  process_image := fun _ _ => .ok ((), 3)
  generate := fun _ _ _ => .ok ("text", 2)
  is_macos_aarch64 := false
  nvidia_smi := fun _ => .ok { status_success := true }

/-- An environment whose host probe itself fails on every invocation. -/
def probeFailEnv : Env Unit Unit :=
  { okEnv with nvidia_smi := fun _ => .error "nvidia-smi not found" }

/-- An environment whose model-loading phase fails. -/
def loadFailEnv : Env Unit Unit :=
  { okEnv with load_backend := fun _ _ _ _ => .error "load failed" }

/-- An environment whose image-preprocessing phase fails. -/
def processFailEnv : Env Unit Unit :=
  { okEnv with process_image := fun _ _ => .error "bad image" }

/-- An environment whose text-generation phase fails. -/
def generateFailEnv : Env Unit Unit :=
  { okEnv with generate := fun _ _ _ => .error "generation failed" }

/-- An environment whose host probe fails on its first invocation and
succeeds afterwards: a host whose accelerator state changes mid-run. -/
def flakyEnv : Env Unit Unit :=
  { okEnv with nvidia_smi := fun k =>
      if k = 0 then .error "probe failed" else .ok { status_success := true } }

/-- The successful result `okEnv` produces for any CPU configuration of
backend `Candle`, variant `Tiny`. -/
def okResult : BenchmarkResult :=
  { backend := .Candle, variant := .Tiny, use_cpu := true,
    load_time := 5, process_time := 3, generate_time := 2, output := "text" }

/-- Claim C1: for non-empty backend, variant and device lists (on a host whose
accelerator availability is stable across the run, as the claim's single
device filter presupposes), `run_benchmarks` returns exactly
`|backends| * |variants| * |devices after the accelerator filter|` outcomes,
and the outcome sequence is exactly the map of `benchmark_model` over the
configuration cross-product in matrix-iteration order: backend outer, variant
middle, device innermost. -/
theorem claim_C1 {M I : Type} (env : Env M I) (backends : List SmolVLMModel)
    (variants : List SmolVLMVariant) (devices : List Bool)
    (mp ip pr : String) (hstable : StableProbe env)
    (_hb : backends ≠ []) (_hv : variants ≠ []) (_hd : devices ≠ []) :
    (run_benchmarks env backends variants devices mp ip pr).results =
      (matrix_configs backends variants (keptDevices env devices)).map
        (fun c => benchmark_model env c.1 c.2.1 c.2.2 mp ip pr) ∧
    (run_benchmarks env backends variants devices mp ip pr).results.length =
      backends.length * variants.length * (keptDevices env devices).length := by
  refine ⟨run_benchmarks_results_eq env backends variants devices mp ip pr hstable, ?_⟩
  rw [run_benchmarks_results_eq env backends variants devices mp ip pr hstable,
    List.length_map, matrix_configs_length]

/-- Closed instance of claim C1: two backends, one variant, one CPU device on
the always-available host give exactly the two outcomes in matrix order. -/
theorem claim_C1_witness :
    (run_benchmarks okEnv [SmolVLMModel.Candle, SmolVLMModel.Onnx]
        [SmolVLMVariant.Tiny] [true] "m" "i" "p").results =
      (matrix_configs [SmolVLMModel.Candle, SmolVLMModel.Onnx]
        [SmolVLMVariant.Tiny] (keptDevices okEnv [true])).map
        (fun c => benchmark_model okEnv c.1 c.2.1 c.2.2 "m" "i" "p") ∧
    (run_benchmarks okEnv [SmolVLMModel.Candle, SmolVLMModel.Onnx]
        [SmolVLMVariant.Tiny] [true] "m" "i" "p").results.length =
      2 * 1 * (keptDevices okEnv [true]).length :=
  claim_C1 okEnv [SmolVLMModel.Candle, SmolVLMModel.Onnx] [SmolVLMVariant.Tiny]
    [true] "m" "i" "p" (fun _ => rfl)
    (List.cons_ne_nil _ _) (List.cons_ne_nil _ _) (List.cons_ne_nil _ _)

/-- Claim C2: each phase failure of a configuration short-circuits
`benchmark_model` to a `Failure` carrying exactly the originating error (so no
partial `BenchmarkResult` exists and later phases of that configuration are
irrelevant), and the overall run still records one outcome for every
configuration of the (filtered) matrix, whatever the individual outcomes. -/
theorem claim_C2 {M I : Type} (env : Env M I) (b : SmolVLMModel)
    (v : SmolVLMVariant) (d : Bool) (mp ip pr : String) :
    (∀ e, env.load_backend b v d mp = .error e →
       benchmark_model env b v d mp ip pr = .error e) ∧
    (∀ m lt e, env.load_backend b v d mp = .ok (m, lt) →
       env.process_image m ip = .error e →
       benchmark_model env b v d mp ip pr = .error e) ∧
    (∀ m lt i pt e, env.load_backend b v d mp = .ok (m, lt) →
       env.process_image m ip = .ok (i, pt) →
       env.generate m i pr = .error e →
       benchmark_model env b v d mp ip pr = .error e) ∧
    (∀ (backends : List SmolVLMModel) (variants : List SmolVLMVariant)
       (devices : List Bool), StableProbe env →
       (run_benchmarks env backends variants devices mp ip pr).results.length =
         backends.length * variants.length * (keptDevices env devices).length) := by
  refine ⟨?_, ?_, ?_, ?_⟩
  · intro e h
    rw [benchmark_model, h]
  · intro m lt e h1 h2
    simp only [benchmark_model, h1, h2]
  · intro m lt i pt e h1 h2 h3
    simp only [benchmark_model, h1, h2, h3]
  · intro backends variants devices hstable
    rw [run_benchmarks_results_eq env backends variants devices mp ip pr hstable,
      List.length_map, matrix_configs_length]

/-- Closed instance of claim C2: a failing load, preprocess and generate phase
each yield exactly the originating error as the outcome, and a run whose every
load fails still records an outcome per configuration. -/
theorem claim_C2_witness :
    benchmark_model loadFailEnv .Candle .Tiny true "m" "i" "p" = .error "load failed" ∧
    benchmark_model processFailEnv .Candle .Tiny true "m" "i" "p" = .error "bad image" ∧
    benchmark_model generateFailEnv .Candle .Tiny true "m" "i" "p" = .error "generation failed" ∧
    (run_benchmarks loadFailEnv [SmolVLMModel.Candle, SmolVLMModel.Onnx]
        [SmolVLMVariant.Tiny] [true] "m" "i" "p").results.length =
      2 * 1 * (keptDevices loadFailEnv [true]).length :=
  ⟨(claim_C2 loadFailEnv .Candle .Tiny true "m" "i" "p").1 "load failed" rfl,
   (claim_C2 processFailEnv .Candle .Tiny true "m" "i" "p").2.1 () 5 "bad image" rfl rfl,
   (claim_C2 generateFailEnv .Candle .Tiny true "m" "i" "p").2.2.1 () 5 () 3
     "generation failed" rfl rfl rfl,
   (claim_C2 loadFailEnv .Candle .Tiny true "m" "i" "p").2.2.2
     [SmolVLMModel.Candle, SmolVLMModel.Onnx] [SmolVLMVariant.Tiny] [true]
     (fun _ => rfl)⟩

/-- Claim C3: when every accelerator probe reports unavailable, the run
executes exactly the CPU configurations (accelerator entries are dropped at
planning time, producing neither successes nor failures), and every successful
outcome is labelled `use_cpu = true`. -/
theorem claim_C3 {M I : Type} (env : Env M I) (backends : List SmolVLMModel)
    (variants : List SmolVLMVariant) (devices : List Bool)
    (mp ip pr : String) (hunavail : ∀ k, gpu_available env k = false) :
    (run_benchmarks env backends variants devices mp ip pr).results =
      (matrix_configs backends variants (devices.filter fun d => d)).map
        (fun c => benchmark_model env c.1 c.2.1 c.2.2 mp ip pr) ∧
    ∀ out ∈ (run_benchmarks env backends variants devices mp ip pr).results,
      ∀ r : BenchmarkResult, out = .ok r → r.use_cpu = true := by
  have hstable : StableProbe env := fun k => (hunavail k).trans (hunavail 0).symm
  have hkept : keptDevices env devices = devices.filter fun d => d := by
    simp [keptDevices, hunavail 0]
  have hres := run_benchmarks_results_eq env backends variants devices mp ip pr hstable
  rw [hkept] at hres
  refine ⟨hres, ?_⟩
  intro out hmem r hr
  rw [hres] at hmem
  rcases List.mem_map.mp hmem with ⟨c, hc, hout⟩
  simp only [matrix_configs, List.mem_flatMap, List.mem_map] at hc
  rcases hc with ⟨b, _, v, _, ⟨d, hd, rfl⟩⟩
  have hd' : d = true := (List.mem_filter.mp hd).2
  have hok : benchmark_model env b v d mp ip pr = .ok r := by rw [hout, hr]
  have := benchmark_model_labels env b v d mp ip pr r hok
  rw [this.2.2, hd']

/-- Closed instance of claim C3: devices `[CPU, GPU]` on a host whose probe
fails give exactly the CPU outcome and nothing for the accelerator entry. -/
theorem claim_C3_witness :
    (run_benchmarks probeFailEnv [SmolVLMModel.Candle] [SmolVLMVariant.Tiny]
        [true, false] "m" "i" "p").results =
      (matrix_configs [SmolVLMModel.Candle] [SmolVLMVariant.Tiny]
        ([true, false].filter fun d => d)).map
        (fun c => benchmark_model probeFailEnv c.1 c.2.1 c.2.2 "m" "i" "p") :=
  (claim_C3 probeFailEnv [SmolVLMModel.Candle] [SmolVLMVariant.Tiny]
    [true, false] "m" "i" "p" (fun _ => rfl)).1

/-- Claim C4, corrected: `gpu_available` is invoked once per accelerator-device
iteration of the matrix — `|backends| * |variants| * (number of accelerator
entries in devices)` times per `run_benchmarks` call, never for a CPU entry —
rather than once per run. -/
theorem claim_C4 {M I : Type} (env : Env M I) (backends : List SmolVLMModel)
    (variants : List SmolVLMVariant) (devices : List Bool)
    (mp ip pr : String) :
    (run_benchmarks env backends variants devices mp ip pr).probeCalls =
      backends.length * variants.length * (devices.filter fun d => !d).length :=
  run_benchmarks_probeCalls env backends variants devices mp ip pr

/-- Counterexample to claim C4 as stated: a single-backend, single-variant run
over two accelerator device entries invokes the probe twice, not once, and the
two invocations can observe different availability snapshots. -/
theorem claim_C4_counterexample :
    (run_benchmarks flakyEnv [SmolVLMModel.Candle] [SmolVLMVariant.Tiny]
        [false, false] "m" "i" "p").probeCalls = 2 ∧
    gpu_available flakyEnv 0 ≠ gpu_available flakyEnv 1 ∧
    (2 : Nat) ≠ 1 := by
  refine ⟨rfl, ?_, by decide⟩
  decide

/-- Claim C5: `compare_backends` is the concatenation of per-group texts over
every (variant, device) pair, and a group's text is empty exactly when the
group has fewer than two successful results — so every group with two or more
successful results is included and every smaller group is omitted. -/
theorem claim_C5 (results : List (Except SmolVLMError BenchmarkResult))
    (v : SmolVLMVariant) (c : Bool) :
    compare_backends results =
      String.join (variant_device_pairs.map fun p => compare_group results p.1 p.2) ∧
    (v, c) ∈ variant_device_pairs ∧
    ((group_results results v c).length < 2 ↔ compare_group results v c = "") := by
  refine ⟨rfl, ?_, ?_, ?_⟩
  · cases v <;> cases c <;> decide
  · intro h
    simp only [compare_group]
    rw [if_neg (by omega)]
  · intro h
    by_contra hlen
    push_neg at hlen
    have hpos : (compare_group results v c).length ≠ 0 := by
      simp only [compare_group]
      rw [if_pos (by omega)]
      simp only [String.length_append]
      have h5 : ("\n=== " : String).length = 5 := rfl
      omega
    rw [h] at hpos
    exact hpos rfl

/-- Claim C6: the total duration reported for a successful result — in the
`Total time:` line of `BenchmarkResult::to_string` and in the last column of
its `print_benchmark_table` row — is the recomputed sum
`load_time + process_time + generate_time` of the three stored phase
durations (the struct stores no separate total field). -/
theorem claim_C6 (r : BenchmarkResult) :
    (∃ s t : String, BenchmarkResult.to_string r =
        s ++ ("Total time: " ++
          formatDuration (r.load_time + r.process_time + r.generate_time)) ++ t) ∧
    (∃ s : String, success_row r =
        s ++ padRight (formatDuration (r.load_time + r.process_time + r.generate_time)) 15) := by
  constructor
  · refine ⟨"Backend: " ++ r.backend.debug ++ ", Variant: " ++ r.variant.debug ++
      ", Device: " ++ deviceLabel r.use_cpu ++ "\n" ++ "Load time: " ++
      formatDuration r.load_time ++ "\n" ++ "Process time: " ++
      formatDuration r.process_time ++ "\n" ++ "Generate time: " ++
      formatDuration r.generate_time ++ "\n",
      "\n" ++ ("Output: " ++ r.output), ?_⟩
    simp only [BenchmarkResult.to_string, String.append_assoc]
  · refine ⟨padRight r.backend.debug 10 ++ " " ++ padRight r.variant.debug 8 ++ " " ++
      padRight (deviceLabel r.use_cpu) 5 ++ " " ++
      padRight (formatDuration r.load_time) 15 ++ " " ++
      padRight (formatDuration r.process_time) 15 ++ " " ++
      padRight (formatDuration r.generate_time) 15 ++ " ", ?_⟩
    simp only [success_row, String.append_assoc]

/-- Claim C7: `get_fps` returns `0` when the preprocessing duration is zero,
otherwise `1 / preprocess_seconds`, and it depends on no phase other than the
preprocessing duration. -/
theorem claim_C7 (r : BenchmarkResult) :
    (r.process_time = 0 → get_fps r = 0) ∧
    (r.process_time ≠ 0 →
       get_fps r = 1 / ((r.process_time : ℚ) / 1000000000)) ∧
    (∀ s : BenchmarkResult, s.process_time = r.process_time →
       get_fps s = get_fps r) := by
  refine ⟨?_, ?_, ?_⟩
  · intro h
    simp [get_fps, h]
  · intro h
    have hn : 0 < r.process_time := Nat.pos_of_ne_zero h
    have hpos : (0 : ℚ) < (r.process_time : ℚ) / 1000000000 :=
      div_pos (by exact_mod_cast hn) (by norm_num)
    simp [get_fps, hpos]
  · intro s hs
    simp [get_fps, hs]

/-- A successful result with a zero preprocessing duration. -/
def zeroProcResult : BenchmarkResult :=
  { okResult with process_time := 0 }

/-- Closed instance of claim C7: a zero preprocessing duration gives FPS 0,
a nonzero one gives the reciprocal of its second count. -/
theorem claim_C7_witness :
    get_fps zeroProcResult = 0 ∧
    get_fps okResult = 1 / ((okResult.process_time : ℚ) / 1000000000) :=
  ⟨(claim_C7 zeroProcResult).1 rfl,
   (claim_C7 okResult).2.1 (by decide)⟩

/-- Claim C8: whatever the underlying host query does, `gpu_available` never
propagates its error: a failing probe is reported as accelerator
unavailable. -/
theorem claim_C8 {M I : Type} (env : Env M I) (k : Nat) (e : SmolVLMError)
    (h : env.nvidia_smi k = .error e) : gpu_available env k = false := by
  by_cases hm : env.is_macos_aarch64
  · simp [gpu_available, hm]
  · simp [gpu_available, hm, h]

/-- Closed instance of claim C8: the environment whose probe always fails
reports the accelerator as unavailable. -/
theorem claim_C8_witness : gpu_available probeFailEnv 0 = false :=
  claim_C8 probeFailEnv 0 "nvidia-smi not found" rfl

/-- Claim C9: the tabular report is the header, the separator, and then
exactly one line per outcome in sequence order — the seven-column timing row
for a success and the dedicated `Error:` line for a failure, so no failed
configuration's row is omitted. -/
theorem claim_C9 (results : List (Except SmolVLMError BenchmarkResult)) :
    (print_benchmark_table results).length = results.length + 2 ∧
    (print_benchmark_table results).drop 2 = results.map benchmark_table_line ∧
    (∀ r : BenchmarkResult, benchmark_table_line (.ok r) = success_row r) ∧
    (∀ e : SmolVLMError, benchmark_table_line (.error e) = "Error: " ++ e) := by
  refine ⟨?_, rfl, fun r => rfl, fun e => rfl⟩
  simp [print_benchmark_table]

theorem devices_foldl_mem {M I : Type} (env : Env M I) (mp ip pr : String)
    (b : SmolVLMModel) (v : SmolVLMVariant) (devices : List Bool) :
    ∀ (st : RunState) (out : Except SmolVLMError BenchmarkResult),
      out ∈ (devices.foldl (runInner env mp ip pr b v) st).results →
      out ∈ st.results ∨
        ∃ d ∈ devices, out = benchmark_model env b v d mp ip pr := by
  induction devices with
  | nil =>
    intro st out h
    exact Or.inl h
  | cons d rest ih =>
    intro st out h
    rw [List.foldl_cons] at h
    rcases ih (runInner env mp ip pr b v st d) out h with h1 | ⟨d', hd', rfl⟩
    · have hstep : out ∈ st.results ∨ out = benchmark_model env b v d mp ip pr := by
        cases d with
        | true =>
          simp only [runInner, if_true] at h1
          rcases List.mem_append.mp h1 with h2 | h2
          · exact Or.inl h2
          · exact Or.inr (List.mem_singleton.mp h2)
        | false =>
          simp only [runInner, Bool.false_eq_true, if_false] at h1
          split at h1
          · rcases List.mem_append.mp h1 with h2 | h2
            · exact Or.inl h2
            · exact Or.inr (List.mem_singleton.mp h2)
          · exact Or.inl h1
      rcases hstep with h2 | h2
      · exact Or.inl h2
      · exact Or.inr ⟨d, List.mem_cons_self _ _, h2⟩
    · exact Or.inr ⟨d', List.mem_cons_of_mem _ hd', rfl⟩

theorem variants_foldl_mem {M I : Type} (env : Env M I) (mp ip pr : String)
    (b : SmolVLMModel) (variants : List SmolVLMVariant) (devices : List Bool) :
    ∀ (st : RunState) (out : Except SmolVLMError BenchmarkResult),
      out ∈ (variants.foldl (fun st v =>
          devices.foldl (runInner env mp ip pr b v) st) st).results →
      out ∈ st.results ∨
        ∃ v ∈ variants, ∃ d ∈ devices,
          out = benchmark_model env b v d mp ip pr := by
  induction variants with
  | nil =>
    intro st out h
    exact Or.inl h
  | cons v rest ih =>
    intro st out h
    rw [List.foldl_cons] at h
    rcases ih _ out h with h1 | ⟨v', hv', d, hd, rfl⟩
    · rcases devices_foldl_mem env mp ip pr b v devices st out h1 with h2 | ⟨d, hd, rfl⟩
      · exact Or.inl h2
      · exact Or.inr ⟨v, List.mem_cons_self _ _, d, hd, rfl⟩
    · exact Or.inr ⟨v', List.mem_cons_of_mem _ hv', d, hd, rfl⟩

/-- Unconditionally — whatever the host probe answers, invocation by
invocation — every outcome in the run's results is the outcome of some
configuration of the full matrix. -/
theorem run_benchmarks_mem {M I : Type} (env : Env M I) (backends : List SmolVLMModel)
    (variants : List SmolVLMVariant) (devices : List Bool)
    (mp ip pr : String) :
    ∀ out ∈ (run_benchmarks env backends variants devices mp ip pr).results,
      ∃ b ∈ backends, ∃ v ∈ variants, ∃ d ∈ devices,
        out = benchmark_model env b v d mp ip pr := by
  have key : ∀ (bs : List SmolVLMModel) (st : RunState)
      (out : Except SmolVLMError BenchmarkResult),
      out ∈ (bs.foldl (fun st backend => variants.foldl (fun st variant =>
        devices.foldl (runInner env mp ip pr backend variant) st) st) st).results →
      out ∈ st.results ∨
        ∃ b ∈ bs, ∃ v ∈ variants, ∃ d ∈ devices,
          out = benchmark_model env b v d mp ip pr := by
    intro bs
    induction bs with
    | nil =>
      intro st out h
      exact Or.inl h
    | cons b rest ih =>
      intro st out h
      rw [List.foldl_cons] at h
      rcases ih _ out h with h1 | ⟨b', hb', v, hv, d, hd, rfl⟩
      · rcases variants_foldl_mem env mp ip pr b variants devices st out h1 with
          h2 | ⟨v, hv, d, hd, rfl⟩
        · exact Or.inl h2
        · exact Or.inr ⟨b, List.mem_cons_self _ _, v, hv, d, hd, rfl⟩
      · exact Or.inr ⟨b', List.mem_cons_of_mem _ hb', v, hv, d, hd, rfl⟩
  intro out hmem
  rcases key backends { probeCalls := 0, results := [] } out hmem with h1 | h2
  · exact absurd h1 (List.not_mem_nil _)
  · exact h2

/-- Claim C10: every successful outcome the run produces — on any host,
stable or not — is the outcome of a configuration of the matrix, and its
`backend`, `variant` and `use_cpu` fields equal exactly that configuration's
components. -/
theorem claim_C10 {M I : Type} (env : Env M I) (backends : List SmolVLMModel)
    (variants : List SmolVLMVariant) (devices : List Bool)
    (mp ip pr : String) :
    ∀ out ∈ (run_benchmarks env backends variants devices mp ip pr).results,
      ∀ r : BenchmarkResult, out = .ok r →
        ∃ c ∈ matrix_configs backends variants devices,
          benchmark_model env c.1 c.2.1 c.2.2 mp ip pr = .ok r ∧
          r.backend = c.1 ∧ r.variant = c.2.1 ∧ r.use_cpu = c.2.2 := by
  intro out hmem r hr
  rcases run_benchmarks_mem env backends variants devices mp ip pr out hmem with
    ⟨b, hb, v, hv, d, hd, rfl⟩
  have hok : benchmark_model env b v d mp ip pr = .ok r := hr
  have hlab := benchmark_model_labels env b v d mp ip pr r hok
  refine ⟨(b, v, d), ?_, hok, hlab.1, hlab.2.1, hlab.2.2⟩
  simp only [matrix_configs, List.mem_flatMap, List.mem_map]
  exact ⟨b, hb, v, hv, d, hd, rfl⟩

/-- The successful result `flakyEnv` produces for the accelerator
configuration of backend `Candle`, variant `Tiny`. -/
def gpuResult : BenchmarkResult :=
  { okResult with use_cpu := false }

/-- Closed instance of claim C10 on a changing host: the flaky environment's
first accelerator iteration is skipped, its second succeeds, and that
successful outcome is labelled with its own configuration. -/
theorem claim_C10_witness :
    ∃ c ∈ matrix_configs [SmolVLMModel.Candle] [SmolVLMVariant.Tiny] [false, false],
      benchmark_model flakyEnv c.1 c.2.1 c.2.2 "m" "i" "p" = .ok gpuResult ∧
      gpuResult.backend = c.1 ∧ gpuResult.variant = c.2.1 ∧
      gpuResult.use_cpu = c.2.2 := by
  have hm : (Except.ok gpuResult) ∈
      (run_benchmarks flakyEnv [SmolVLMModel.Candle] [SmolVLMVariant.Tiny]
        [false, false] "m" "i" "p").results := by
    have h : (run_benchmarks flakyEnv [SmolVLMModel.Candle] [SmolVLMVariant.Tiny]
        [false, false] "m" "i" "p").results = [Except.ok gpuResult] := rfl
    rw [h]
    exact List.mem_singleton.mpr rfl
  exact claim_C10 flakyEnv [SmolVLMModel.Candle] [SmolVLMVariant.Tiny]
    [false, false] "m" "i" "p" (Except.ok gpuResult) hm gpuResult rfl
